import Mathlib

/-!
Shallow embedding of the ecactus-ecos-scheduler core
(src/utils/battery.py and src/utils/price_data.py).

Conventions of the embedding:
* Python floats are modelled as rationals (the arithmetic of the claims is
  exact at rational inputs); the price-confidence function, whose claims
  quantify over real exponential decay, is modelled over the reals.
* The battery is modelled in provider-absent mode (ecactus_client = None),
  which is the mode every claim stipulates; in that mode _update_from_api
  is a no-op and charge/discharge take the simulated branch.
* The ambient clock (datetime.now) is passed explicitly: calendar dates
  become natural numbers ordered by succession (today, the current date,
  is a parameter of every method that reads the clock).
* Methods that mutate the instance become functions returning the new
  Battery (paired with their Python return value where there is one).
-/

/-- State of the Python Battery object (src/utils/battery.py, __init__),
restricted to provider-absent mode. Field names follow the source; the
private fields _current_power, _daily_cycles, _last_cycle_reset drop the
leading underscore. -/
structure Battery where
  capacity : ℚ
  min_soc : ℚ
  max_soc : ℚ
  charge_rate : ℚ
  current_soc : ℚ
  profile_name : Option String
  daily_consumption : ℚ
  usage_pattern : String
  yearly_consumption : ℚ
  monthly_distribution : List (ℤ × ℚ)
  surcharge_rate : ℚ
  min_daily_cycles : ℚ
  max_daily_cycles : ℚ
  current_power : ℚ
  daily_cycles : ℚ
  last_cycle_reset : ℕ

/-- Python round-half-to-even of a rational to the nearest integer. -/
def roundHalfEven (x : ℚ) : ℤ :=
  let n := ⌊x⌋
  let r := x - n
  if r < 1/2 then n
  else if 1/2 < r then n + 1
  else if n % 2 = 0 then n else n + 1

/-- Python round(x, 3). -/
def round3 (x : ℚ) : ℚ := (roundHalfEven (x * 1000) : ℚ) / 1000

/-- The default monthly_distribution dictionary from __init__. -/
def default_monthly_distribution : List (ℤ × ℚ) :=
  [(1, 1.2), (2, 1.15), (3, 1), (4, 0.9), (5, 0.8), (6, 0.7),
   (7, 0.7), (8, 0.7), (9, 0.8), (10, 0.9), (11, 1), (12, 1.15)]

/-- Battery.__init__ with the default keyword arguments of the source
(daily_consumption=15.0, yearly_consumption=5475.0, surcharge_rate=0.050
rounded to 3 decimals, min_daily_cycles=0.5, max_daily_cycles=1.5,
current_soc starts at 0.5, _daily_cycles at 0.0, _last_cycle_reset at the
construction date). -/
def Battery.init (capacity min_soc max_soc charge_rate : ℚ) (constructionDate : ℕ) : Battery :=
  { capacity := capacity
    min_soc := min_soc
    max_soc := max_soc
    charge_rate := charge_rate
    current_soc := 0.5
    profile_name := none
    daily_consumption := 15.0
    usage_pattern := "Flat"
    yearly_consumption := 5475.0
    monthly_distribution := default_monthly_distribution
    surcharge_rate := round3 0.050
    min_daily_cycles := 0.5
    max_daily_cycles := 1.5
    current_power := 0.0
    daily_cycles := 0.0
    last_cycle_reset := constructionDate }

/-- Battery._reset_daily_cycles_if_needed: reset the daily cycles counter
if the current date has advanced past the last reset date. -/
def Battery.reset_daily_cycles_if_needed (b : Battery) (today : ℕ) : Battery :=
  if b.last_cycle_reset < today then
    { b with daily_cycles := 0, last_cycle_reset := today }
  else b

/-- Battery._update_cycles: lazy reset, then add the cycle fraction
abs(energy_amount)/capacity to the daily counter. -/
def Battery.update_cycles (b : Battery) (today : ℕ) (energy_amount : ℚ) : Battery :=
  let b := b.reset_daily_cycles_if_needed today
  { b with daily_cycles := b.daily_cycles + |energy_amount| / b.capacity }

/-- Battery.can_complete_cycles: lazy reset (a mutation, hence the Battery
in the result), then check min_daily_cycles <= new_cycles <= max_daily_cycles
where new_cycles = daily_cycles + abs(energy_amount)/capacity. -/
def Battery.can_complete_cycles (b : Battery) (today : ℕ) (energy_amount : ℚ) :
    Bool × Battery :=
  let b := b.reset_daily_cycles_if_needed today
  let new_cycles := b.daily_cycles + |energy_amount| / b.capacity
  (decide (b.min_daily_cycles ≤ new_cycles ∧ new_cycles ≤ b.max_daily_cycles), b)

/-- Battery.can_charge (provider absent, so _update_from_api is a no-op):
the resulting SoC stays at or below max_soc. -/
def Battery.can_charge (b : Battery) (amount : ℚ) : Bool :=
  decide (b.current_soc + amount / b.capacity ≤ b.max_soc)

/-- Battery.can_discharge (provider absent): the resulting SoC stays at or
above min_soc. -/
def Battery.can_discharge (b : Battery) (amount : ℚ) : Bool :=
  decide (b.min_soc ≤ b.current_soc - amount / b.capacity)

/-- Battery.charge in provider-absent mode. Python short-circuits
can_charge(amount) and can_complete_cycles(amount): when can_charge fails
the lazy reset inside can_complete_cycles never runs, so the state is
returned untouched; when only the cycle check fails, the lazily reset
state is kept. On success current_soc rises by amount/capacity,
_current_power is set to amount, then _update_cycles(amount) runs. -/
def Battery.charge (b : Battery) (today : ℕ) (amount : ℚ) : Bool × Battery :=
  if b.can_charge amount then
    let p := b.can_complete_cycles today amount
    if p.1 then
      let b2 : Battery :=
        { p.2 with current_soc := p.2.current_soc + amount / p.2.capacity
                   current_power := amount }
      (true, b2.update_cycles today amount)
    else (false, p.2)
  else (false, b)

/-- Battery.discharge in provider-absent mode, symmetric to charge with
can_discharge and can_complete_cycles(-amount). -/
def Battery.discharge (b : Battery) (today : ℕ) (amount : ℚ) : Bool × Battery :=
  if b.can_discharge amount then
    let p := b.can_complete_cycles today (-amount)
    if p.1 then
      let b2 : Battery :=
        { p.2 with current_soc := p.2.current_soc - amount / p.2.capacity
                   current_power := -amount }
      (true, b2.update_cycles today (-amount))
    else (false, p.2)
  else (false, b)

/-- Battery.get_remaining_cycles: lazy reset, then
max_daily_cycles - daily_cycles (value paired with the updated state). -/
def Battery.get_remaining_cycles (b : Battery) (today : ℕ) : ℚ × Battery :=
  let b := b.reset_daily_cycles_if_needed today
  (b.max_daily_cycles - b.daily_cycles, b)

/-- Battery.get_seasonal_factor: dict lookup with default 1.0. -/
def Battery.get_seasonal_factor (b : Battery) (month : ℤ) : ℚ :=
  (b.monthly_distribution.lookup month).getD 1.0

/-- A calendar date, reduced to the two observations battery.py makes of
it: date.month and date.weekday() (0 = Monday ... 6 = Sunday). -/
structure PDate where
  month : ℤ
  weekday : ℕ

/-- Battery.get_daily_consumption_for_date:
(yearly_consumption / 365) * seasonal_factor(date.month). -/
def Battery.get_daily_consumption_for_date (b : Battery) (date : PDate) : ℚ :=
  (b.yearly_consumption / 365.0) * b.get_seasonal_factor date.month

/-- Battery.get_hourly_consumption: weekday/weekend-aware time-of-day
multiplier applied to the daily figure divided by 24. -/
def Battery.get_hourly_consumption (b : Battery) (hour : ℤ) (date : PDate) : ℚ :=
  let daily := b.get_daily_consumption_for_date date / 24.0
  let is_weekend := 5 ≤ date.weekday
  if ¬ is_weekend then
    if 7 ≤ hour ∧ hour ≤ 9 then daily * 2.0
    else if 17 ≤ hour ∧ hour ≤ 22 then daily * 2.5
    else if 0 ≤ hour ∧ hour ≤ 6 then daily * 0.3
    else daily * 0.8
  else
    if 9 ≤ hour ∧ hour ≤ 12 then daily * 1.8
    else if 13 ≤ hour ∧ hour ≤ 22 then daily * 1.5
    else daily * 0.4

/-- Battery.get_effective_price: round(base_price + surcharge_rate, 3);
the hour argument is accepted and ignored. -/
def Battery.get_effective_price (b : Battery) (base_price : ℚ) (hour : ℤ) : ℚ :=
  round3 (base_price + b.surcharge_rate)

/-!
Embedding of src/utils/price_data.py. The clock and every
non-deterministic or transcendental leaf of get_day_ahead_prices is an
oracle field of PriceEnv; the deterministic arithmetic skeleton of the
source is reproduced exactly over those oracles, so each theorem holds
for every draw of the randomness and every value of the transcendental
leaves.
-/

/-- Ambient data of one call to get_day_ahead_prices: the clock (hours
since a Monday-midnight epoch, split into the truncated hour and the
already-elapsed fraction of it) and oracle models of the randomness and
transcendental leaves: uniform i lo hi for the i-th np.random.uniform(lo,
hi) draw, normal i mu sigma for the i-th np.random.normal(mu, sigma)
draw, expQ for np.exp, and sinFactor hour for np.sin(2*pi*hour/24). -/
structure PriceEnv where
  nowAbsHour : ℕ
  nowFrac : ℚ
  uniform : ℕ → ℚ → ℚ → ℚ
  normal : ℕ → ℚ → ℚ → ℚ
  expQ : ℚ → ℚ
  sinFactor : ℕ → ℚ

/-- get_day_ahead_prices (src/utils/price_data.py lines 5-68): clamps the
horizon to [12, 36]; both branches of the publication-time test set
start_date = current_hour, so the sequence always starts at the truncated
current hour; each hourly entry gets the synthetic price of the source
with the final max(0.05, price) floor. -/
def get_day_ahead_prices (env : PriceEnv) (forecast_hours : ℤ) : List ℚ :=
  let fh : ℤ := max 12 (min forecast_hours 36)
  let base_price : ℚ := 0.22
  let peak_hours : List ℕ := [7, 8, 9, 17, 18, 19, 20]
  let shoulder_hours : List ℕ := [10, 11, 12, 13, 14, 15, 16]
  (List.range fh.toNat).map (fun i =>
    let hour : ℕ := (env.nowAbsHour + i) % 24
    let hours_ahead : ℚ := max 0 ((i : ℚ) - env.nowFrac)
    let uncertainty_factor : ℚ := 0.2 / (1 + env.expQ (-hours_ahead / 24))
    let weekly_factor : ℚ :=
      if ((env.nowAbsHour + i) / 24) % 7 < 5 then 1.0 + 0.05 else 1.0 - 0.05
    let daily_factor : ℚ := env.sinFactor hour * 0.1
    let price : ℚ :=
      if hour ∈ peak_hours then
        base_price * weekly_factor * (1 + env.uniform i 0.3 0.5 + daily_factor)
      else if hour ∈ shoulder_hours then
        base_price * weekly_factor * (1 + env.uniform i 0.1 0.3 + daily_factor)
      else
        base_price * weekly_factor * (1 + env.uniform i (-0.3) 0.0 + daily_factor)
    let price := price * (1 + env.normal i 0 (max 0.001 uncertainty_factor))
    max 0.05 price)

/-- is_prices_available_for_tomorrow: the current local time of day (in
seconds, fractional to cover microseconds) is at or past 13:00. -/
def is_prices_available_for_tomorrow (nowSecondsOfDay : ℚ) : Bool :=
  decide ((13 * 3600 : ℚ) ≤ nowSecondsOfDay)

/-- get_price_forecast_confidence, over the date expressed as its signed
hour distance d from now: hours_ahead = max 0 d; 1.0 inside 24 hours when
tomorrows prices are published, else the exponential decay
exp(-hours_ahead/48) floored at 0.2. -/
noncomputable def get_price_forecast_confidence (published : Bool) (d : ℝ) : ℝ :=
  let hours_ahead : ℝ := max 0 d
  if hours_ahead ≤ 24 ∧ published = true then 1.0
  else max 0.2 (Real.exp (-hours_ahead / 48))

/-! ## Helper lemmas about the battery transition functions -/

@[simp] theorem Battery.reset_capacity (b : Battery) (t : ℕ) :
    (b.reset_daily_cycles_if_needed t).capacity = b.capacity := by
  unfold Battery.reset_daily_cycles_if_needed; split <;> rfl

@[simp] theorem Battery.reset_min_soc (b : Battery) (t : ℕ) :
    (b.reset_daily_cycles_if_needed t).min_soc = b.min_soc := by
  unfold Battery.reset_daily_cycles_if_needed; split <;> rfl

@[simp] theorem Battery.reset_max_soc (b : Battery) (t : ℕ) :
    (b.reset_daily_cycles_if_needed t).max_soc = b.max_soc := by
  unfold Battery.reset_daily_cycles_if_needed; split <;> rfl

@[simp] theorem Battery.reset_current_soc (b : Battery) (t : ℕ) :
    (b.reset_daily_cycles_if_needed t).current_soc = b.current_soc := by
  unfold Battery.reset_daily_cycles_if_needed; split <;> rfl

@[simp] theorem Battery.reset_min_daily_cycles (b : Battery) (t : ℕ) :
    (b.reset_daily_cycles_if_needed t).min_daily_cycles = b.min_daily_cycles := by
  unfold Battery.reset_daily_cycles_if_needed; split <;> rfl

@[simp] theorem Battery.reset_max_daily_cycles (b : Battery) (t : ℕ) :
    (b.reset_daily_cycles_if_needed t).max_daily_cycles = b.max_daily_cycles := by
  unfold Battery.reset_daily_cycles_if_needed; split <;> rfl

theorem Battery.reset_daily_cycles_cases (b : Battery) (t : ℕ) :
    (b.reset_daily_cycles_if_needed t).daily_cycles = 0 ∨
    (b.reset_daily_cycles_if_needed t).daily_cycles = b.daily_cycles := by
  unfold Battery.reset_daily_cycles_if_needed; split
  · exact Or.inl rfl
  · exact Or.inr rfl

theorem Battery.reset_of_le (b : Battery) (t : ℕ) (h : t ≤ b.last_cycle_reset) :
    b.reset_daily_cycles_if_needed t = b := by
  unfold Battery.reset_daily_cycles_if_needed
  rw [if_neg (by omega)]

theorem Battery.reset_of_lt (b : Battery) (t : ℕ) (h : b.last_cycle_reset < t) :
    b.reset_daily_cycles_if_needed t =
      { b with daily_cycles := 0, last_cycle_reset := t } := by
  unfold Battery.reset_daily_cycles_if_needed
  rw [if_pos h]

theorem Battery.reset_last_ge (b : Battery) (t : ℕ) :
    t ≤ (b.reset_daily_cycles_if_needed t).last_cycle_reset := by
  unfold Battery.reset_daily_cycles_if_needed; split
  · exact le_refl t
  · omega

@[simp] theorem Battery.update_cycles_capacity (b : Battery) (t : ℕ) (a : ℚ) :
    (b.update_cycles t a).capacity = b.capacity := by
  unfold Battery.update_cycles; simp

@[simp] theorem Battery.update_cycles_current_soc (b : Battery) (t : ℕ) (a : ℚ) :
    (b.update_cycles t a).current_soc = b.current_soc := by
  unfold Battery.update_cycles; simp

@[simp] theorem Battery.update_cycles_max_daily_cycles (b : Battery) (t : ℕ) (a : ℚ) :
    (b.update_cycles t a).max_daily_cycles = b.max_daily_cycles := by
  unfold Battery.update_cycles; simp

theorem Battery.update_cycles_daily (b : Battery) (t : ℕ) (a : ℚ) :
    (b.update_cycles t a).daily_cycles =
      (b.reset_daily_cycles_if_needed t).daily_cycles + |a| / b.capacity := by
  unfold Battery.update_cycles; simp

@[simp] theorem Battery.can_complete_cycles_snd (b : Battery) (t : ℕ) (a : ℚ) :
    (b.can_complete_cycles t a).2 = b.reset_daily_cycles_if_needed t := rfl

theorem Battery.can_complete_cycles_fst (b : Battery) (t : ℕ) (a : ℚ) :
    (b.can_complete_cycles t a).1 = true ↔
      (b.min_daily_cycles ≤ (b.reset_daily_cycles_if_needed t).daily_cycles + |a| / b.capacity ∧
       (b.reset_daily_cycles_if_needed t).daily_cycles + |a| / b.capacity ≤ b.max_daily_cycles) := by
  unfold Battery.can_complete_cycles
  simp

/-- Success of charge forces both guards true and fixes the final state. -/
theorem Battery.charge_success (b : Battery) (t : ℕ) (a : ℚ)
    (h : (b.charge t a).1 = true) :
    b.can_charge a = true ∧ (b.can_complete_cycles t a).1 = true ∧
    (b.charge t a).2 =
      ({ (b.reset_daily_cycles_if_needed t) with
          current_soc := b.current_soc + a / b.capacity
          current_power := a } : Battery).update_cycles t a := by
  unfold Battery.charge at h ⊢
  by_cases hc : b.can_charge a = true
  · by_cases hp : (b.can_complete_cycles t a).1 = true
    · refine ⟨hc, hp, ?_⟩
      simp only [hc, if_true, hp, if_true]
      simp
    · simp [hc, hp] at h
  · simp [hc] at h

/-- Success of discharge forces both guards true and fixes the final state. -/
theorem Battery.discharge_success (b : Battery) (t : ℕ) (a : ℚ)
    (h : (b.discharge t a).1 = true) :
    b.can_discharge a = true ∧ (b.can_complete_cycles t (-a)).1 = true ∧
    (b.discharge t a).2 =
      ({ (b.reset_daily_cycles_if_needed t) with
          current_soc := b.current_soc - a / b.capacity
          current_power := -a } : Battery).update_cycles t (-a) := by
  unfold Battery.discharge at h ⊢
  by_cases hc : b.can_discharge a = true
  · by_cases hp : (b.can_complete_cycles t (-a)).1 = true
    · refine ⟨hc, hp, ?_⟩
      simp only [hc, if_true, hp, if_true]
      simp
    · simp [hc, hp] at h
  · simp [hc] at h

/-! ## Example instances used by the witness theorems -/

/-- A battery rejecting a 5 kWh operation on SoC grounds:
capacity 10, SoC window [0.1, 0.9], SoC at the initial 0.5. -/
def exampleBattery : Battery := Battery.init 10 0.1 0.9 5 0

/-- A battery accepting a 5 kWh charge and then a 5 kWh discharge:
capacity 10, SoC window [0, 1], SoC at the initial 0.5, cycle window
the default [0.5, 1.5]. -/
def exampleBattery2 : Battery := Battery.init 10 0 1 5 0

/-! ## Claims -/

/-- C1: for every amount, charge(amount) returns false and leaves the
battery state unchanged (the short-circuited guard keeps even the lazy
cycle reset from running) whenever current_soc + amount/capacity exceeds
max_soc, and discharge(amount) returns false and leaves the state
unchanged whenever current_soc - amount/capacity falls below min_soc;
both functions are total, so no exception is possible. -/
theorem charge_discharge_soc_bound_rejection (b : Battery) (today : ℕ) (a : ℚ) :
    (b.max_soc < b.current_soc + a / b.capacity → b.charge today a = (false, b)) ∧
    (b.current_soc - a / b.capacity < b.min_soc → b.discharge today a = (false, b)) := by
  constructor
  · intro h
    unfold Battery.charge
    have hc : b.can_charge a = false := by
      simp only [Battery.can_charge, decide_eq_false_iff_not, not_le]
      exact h
    simp [hc]
  · intro h
    unfold Battery.discharge
    have hc : b.can_discharge a = false := by
      simp only [Battery.can_discharge, decide_eq_false_iff_not, not_le]
      exact h
    simp [hc]

/-- Witness for C1 at the concrete battery exampleBattery and amount 5:
the SoC guard really is violated in both directions and both operations
return (false, unchanged state). -/
theorem charge_discharge_soc_bound_rejection_witness :
    (exampleBattery.max_soc <
        exampleBattery.current_soc + 5 / exampleBattery.capacity) ∧
    exampleBattery.charge 0 5 = (false, exampleBattery) ∧
    (exampleBattery.current_soc - 5 / exampleBattery.capacity <
        exampleBattery.min_soc) ∧
    exampleBattery.discharge 0 5 = (false, exampleBattery) := by
  have h := charge_discharge_soc_bound_rejection exampleBattery 0 5
  refine ⟨?_, h.1 ?_, ?_, h.2 ?_⟩ <;>
    norm_num [exampleBattery, Battery.init]

/-- C2: with no provider, a successful charge(amount) followed by a
successful discharge(amount) returns current_soc exactly to its value
before the charge (the rational embedding makes the floating tolerance
exact). -/
theorem charge_then_discharge_restores_soc (b : Battery) (today : ℕ) (a : ℚ)
    (h1 : (b.charge today a).1 = true)
    (h2 : ((b.charge today a).2.discharge today a).1 = true) :
    ((b.charge today a).2.discharge today a).2.current_soc = b.current_soc := by
  obtain ⟨-, -, hcs⟩ := Battery.charge_success b today a h1
  obtain ⟨-, -, hds⟩ := Battery.discharge_success (b.charge today a).2 today a h2
  rw [hds]
  simp only [Battery.update_cycles_current_soc]
  rw [hcs]
  simp [sub_eq_iff_eq_add]

/-- Witness for C2: on exampleBattery2 the 5 kWh charge and the following
5 kWh discharge both succeed and SoC comes back to 0.5. -/
theorem charge_then_discharge_restores_soc_witness :
    (exampleBattery2.charge 0 5).1 = true ∧
    ((exampleBattery2.charge 0 5).2.discharge 0 5).1 = true ∧
    ((exampleBattery2.charge 0 5).2.discharge 0 5).2.current_soc =
      exampleBattery2.current_soc := by
  have h1 : (exampleBattery2.charge 0 5).1 = true := by
    norm_num [Battery.charge, Battery.can_charge, Battery.can_complete_cycles,
      Battery.reset_daily_cycles_if_needed, Battery.init, exampleBattery2]
  have h2 : ((exampleBattery2.charge 0 5).2.discharge 0 5).1 = true := by
    norm_num [Battery.charge, Battery.discharge, Battery.can_charge,
      Battery.can_discharge, Battery.can_complete_cycles, Battery.update_cycles,
      Battery.reset_daily_cycles_if_needed, Battery.init, exampleBattery2]
  exact ⟨h1, h2, charge_then_discharge_restores_soc exampleBattery2 0 5 h1 h2⟩

theorem Battery.update_cycles_of_last_ge (b : Battery) (t : ℕ) (a : ℚ)
    (h : t ≤ b.last_cycle_reset) :
    (b.update_cycles t a).daily_cycles = b.daily_cycles + |a| / b.capacity := by
  rw [Battery.update_cycles_daily, Battery.reset_of_le b t h]

/-- On a successful charge the daily counter lands exactly on the
new_cycles value the guard examined. -/
theorem Battery.charge_success_daily (b : Battery) (t : ℕ) (a : ℚ)
    (h : (b.charge t a).1 = true) :
    (b.charge t a).2.daily_cycles =
      (b.reset_daily_cycles_if_needed t).daily_cycles + |a| / b.capacity := by
  obtain ⟨-, -, hcs⟩ := Battery.charge_success b t a h
  rw [hcs, Battery.update_cycles_of_last_ge]
  · simp
  · simpa using Battery.reset_last_ge b t

/-- On a successful discharge the daily counter lands exactly on the
new_cycles value the guard examined. -/
theorem Battery.discharge_success_daily (b : Battery) (t : ℕ) (a : ℚ)
    (h : (b.discharge t a).1 = true) :
    (b.discharge t a).2.daily_cycles =
      (b.reset_daily_cycles_if_needed t).daily_cycles + |a| / b.capacity := by
  obtain ⟨-, -, hds⟩ := Battery.discharge_success b t a h
  rw [hds, Battery.update_cycles_of_last_ge]
  · simp [abs_neg]
  · simpa using Battery.reset_last_ge b t

/-- C3: can_complete_cycles(amount) is true exactly when, after the lazy
daily reset, min_daily_cycles <= daily_cycles + abs(amount)/capacity <=
max_daily_cycles; and when the resulting total stays strictly below
min_daily_cycles both charge and discharge of that amount return false,
unconditionally, hence in particular also when the SoC bounds would have
allowed the operation. -/
theorem can_complete_cycles_spec_and_min_floor (b : Battery) (today : ℕ) (a : ℚ) :
    ((b.can_complete_cycles today a).1 = true ↔
      (b.min_daily_cycles ≤
          (b.reset_daily_cycles_if_needed today).daily_cycles + |a| / b.capacity ∧
       (b.reset_daily_cycles_if_needed today).daily_cycles + |a| / b.capacity ≤
          b.max_daily_cycles)) ∧
    ((b.reset_daily_cycles_if_needed today).daily_cycles + |a| / b.capacity <
        b.min_daily_cycles →
      (b.charge today a).1 = false ∧ (b.discharge today a).1 = false) := by
  refine ⟨Battery.can_complete_cycles_fst b today a, fun hlt => ⟨?_, ?_⟩⟩
  · by_contra hc
    rw [Bool.not_eq_false] at hc
    obtain ⟨-, hcc, -⟩ := Battery.charge_success b today a hc
    rw [Battery.can_complete_cycles_fst] at hcc
    linarith [hcc.1]
  · by_contra hc
    rw [Bool.not_eq_false] at hc
    obtain ⟨-, hcc, -⟩ := Battery.discharge_success b today a hc
    rw [Battery.can_complete_cycles_fst, abs_neg] at hcc
    linarith [hcc.1]

/-- Witness for C3 at exampleBattery2 and amount 1: the 0.1-cycle
operation stays below the 0.5 minimum, its SoC change would have been
allowed, and both charge and discharge return false. -/
theorem can_complete_cycles_spec_and_min_floor_witness :
    ((exampleBattery2.reset_daily_cycles_if_needed 0).daily_cycles +
        |(1 : ℚ)| / exampleBattery2.capacity < exampleBattery2.min_daily_cycles) ∧
    exampleBattery2.can_charge 1 = true ∧
    (exampleBattery2.charge 0 1).1 = false ∧
    (exampleBattery2.discharge 0 1).1 = false := by
  have hlt : (exampleBattery2.reset_daily_cycles_if_needed 0).daily_cycles +
      |(1 : ℚ)| / exampleBattery2.capacity < exampleBattery2.min_daily_cycles := by
    norm_num [Battery.reset_daily_cycles_if_needed, Battery.init, exampleBattery2]
  have h := (can_complete_cycles_spec_and_min_floor exampleBattery2 0 1).2 hlt
  refine ⟨hlt, ?_, h.1, h.2⟩
  norm_num [Battery.can_charge, Battery.init, exampleBattery2]

/-- A battery whose cycle budget a 6 kWh operation would overflow:
daily_cycles already at 1.0 of the max 1.5, SoC low enough to accept the
charge, last reset on day 0. -/
def exampleBattery4 : Battery :=
  { capacity := 10, min_soc := 0.1, max_soc := 0.9, charge_rate := 5,
    current_soc := 0.3, profile_name := none, daily_consumption := 15,
    usage_pattern := "Flat", yearly_consumption := 5475,
    monthly_distribution := default_monthly_distribution,
    surcharge_rate := 0.05, min_daily_cycles := 0.5, max_daily_cycles := 1.5,
    current_power := 0, daily_cycles := 1, last_cycle_reset := 0 }

/-- C4: while the local date has not advanced past last_cycle_reset, a
positive amount whose cycle fraction would push daily_cycles beyond
max_daily_cycles makes charge and discharge return false with the state
unchanged (so the rejection repeats on every subsequent call); once the
date advances, the lazy reset zeroes daily_cycles on the next
cycle-related access, and a charge whose SoC guard passes and whose own
fraction fits the [min, max] window succeeds again. -/
theorem cycle_budget_exhaustion_until_reset (b : Battery) (today today2 : ℕ) (a : ℚ)
    (hpos : 0 < a)
    (hover : b.max_daily_cycles < b.daily_cycles + a / b.capacity)
    (hdate : today ≤ b.last_cycle_reset) :
    b.charge today a = (false, b) ∧
    b.discharge today a = (false, b) ∧
    (b.last_cycle_reset < today2 →
      (b.can_complete_cycles today2 a).2.daily_cycles = 0 ∧
      (b.can_charge a = true → b.min_daily_cycles ≤ a / b.capacity →
        a / b.capacity ≤ b.max_daily_cycles → (b.charge today2 a).1 = true)) := by
  have habs : |a| = a := abs_of_pos hpos
  have hreset : b.reset_daily_cycles_if_needed today = b := Battery.reset_of_le b today hdate
  have hcc : (b.can_complete_cycles today a).1 = false := by
    rw [Bool.eq_false_iff, Ne, Battery.can_complete_cycles_fst, hreset, habs]
    intro hx
    linarith [hx.2]
  have hccn : (b.can_complete_cycles today (-a)).1 = false := by
    rw [Bool.eq_false_iff, Ne, Battery.can_complete_cycles_fst, hreset, abs_neg, habs]
    intro hx
    linarith [hx.2]
  have hcc2 : (b.can_complete_cycles today a).2 = b := by
    rw [Battery.can_complete_cycles_snd, hreset]
  have hccn2 : (b.can_complete_cycles today (-a)).2 = b := by
    rw [Battery.can_complete_cycles_snd, hreset]
  refine ⟨?_, ?_, ?_⟩
  · unfold Battery.charge
    by_cases hc : b.can_charge a = true
    · simp [hc, hcc, hcc2, hreset]
    · simp [hc]
  · unfold Battery.discharge
    by_cases hc : b.can_discharge a = true
    · simp [hc, hccn, hccn2, hreset]
    · simp [hc]
  · intro h2
    have hr2 : b.reset_daily_cycles_if_needed today2 =
        { b with daily_cycles := 0, last_cycle_reset := today2 } :=
      Battery.reset_of_lt b today2 h2
    constructor
    · rw [Battery.can_complete_cycles_snd, hr2]
    · intro hch hmin hmax
      have hgo : (b.can_complete_cycles today2 a).1 = true := by
        rw [Battery.can_complete_cycles_fst, hr2, habs]
        constructor <;> simpa
      unfold Battery.charge
      simp [hch, hgo]

/-- Witness for C4 at exampleBattery4 with amount 6, on day 0 (same day
as the last reset) and then on day 1: the overfull budget blocks both
operations on day 0, the reset zeroes the counter on day 1, and the same
charge then succeeds. -/
theorem cycle_budget_exhaustion_until_reset_witness :
    exampleBattery4.charge 0 6 = (false, exampleBattery4) ∧
    exampleBattery4.discharge 0 6 = (false, exampleBattery4) ∧
    (exampleBattery4.can_complete_cycles 1 6).2.daily_cycles = 0 ∧
    (exampleBattery4.charge 1 6).1 = true := by
  have h := cycle_budget_exhaustion_until_reset exampleBattery4 0 1 6
    (by norm_num) (by norm_num [exampleBattery4]) (by norm_num [exampleBattery4])
  have h3 := h.2.2 (by norm_num [exampleBattery4])
  refine ⟨h.1, h.2.1, h3.1, h3.2 ?_ ?_ ?_⟩ <;>
    norm_num [Battery.can_charge, exampleBattery4]

/-- C5: with no provider and a positive capacity, every battery operation
preserves 0 <= daily_cycles; a successful charge or discharge leaves
daily_cycles <= max_daily_cycles because the counter lands exactly on the
new_cycles value the guard bounded; and from a state satisfying
daily_cycles <= max_daily_cycles with 0 <= max_daily_cycles,
get_remaining_cycles is nonnegative. -/
theorem daily_cycles_nonneg_and_bounded (b : Battery) (today : ℕ) (a : ℚ)
    (hc : 0 < b.capacity) (hd : 0 ≤ b.daily_cycles) :
    0 ≤ (b.reset_daily_cycles_if_needed today).daily_cycles ∧
    0 ≤ (b.update_cycles today a).daily_cycles ∧
    0 ≤ (b.can_complete_cycles today a).2.daily_cycles ∧
    0 ≤ (b.charge today a).2.daily_cycles ∧
    0 ≤ (b.discharge today a).2.daily_cycles ∧
    ((b.charge today a).1 = true →
      (b.charge today a).2.daily_cycles ≤ b.max_daily_cycles) ∧
    ((b.discharge today a).1 = true →
      (b.discharge today a).2.daily_cycles ≤ b.max_daily_cycles) ∧
    (b.daily_cycles ≤ b.max_daily_cycles → 0 ≤ b.max_daily_cycles →
      0 ≤ (b.get_remaining_cycles today).1) := by
  have hfrac : 0 ≤ |a| / b.capacity := div_nonneg (abs_nonneg a) hc.le
  have hfracn : 0 ≤ |(-a)| / b.capacity := div_nonneg (abs_nonneg (-a)) hc.le
  have hreset0 : 0 ≤ (b.reset_daily_cycles_if_needed today).daily_cycles := by
    rcases Battery.reset_daily_cycles_cases b today with h | h <;> rw [h]
    exact hd
  have hupd : 0 ≤ (b.update_cycles today a).daily_cycles := by
    rw [Battery.update_cycles_daily]
    positivity
  have hchargeda : 0 ≤ (b.charge today a).2.daily_cycles := by
    by_cases hs : (b.charge today a).1 = true
    · rw [Battery.charge_success_daily b today a hs]
      exact add_nonneg hreset0 hfrac
    · unfold Battery.charge
      by_cases h1 : b.can_charge a = true
      · by_cases h2 : (b.can_complete_cycles today a).1 = true
        · exact absurd (by unfold Battery.charge; simp [h1, h2]) hs
        · simp [h1, h2, hreset0]
      · simp [h1, hd]
  have hdischargeda : 0 ≤ (b.discharge today a).2.daily_cycles := by
    by_cases hs : (b.discharge today a).1 = true
    · rw [Battery.discharge_success_daily b today a hs]
      exact add_nonneg hreset0 hfrac
    · unfold Battery.discharge
      by_cases h1 : b.can_discharge a = true
      · by_cases h2 : (b.can_complete_cycles today (-a)).1 = true
        · exact absurd (by unfold Battery.discharge; simp [h1, h2]) hs
        · simp [h1, h2, hreset0]
      · simp [h1, hd]
  refine ⟨hreset0, hupd, by simpa using hreset0, hchargeda, hdischargeda, ?_, ?_, ?_⟩
  · intro hs
    obtain ⟨-, hcc, -⟩ := Battery.charge_success b today a hs
    rw [Battery.can_complete_cycles_fst] at hcc
    rw [Battery.charge_success_daily b today a hs]
    exact hcc.2
  · intro hs
    obtain ⟨-, hcc, -⟩ := Battery.discharge_success b today a hs
    rw [Battery.can_complete_cycles_fst, abs_neg] at hcc
    rw [Battery.discharge_success_daily b today a hs]
    exact hcc.2
  · intro hle hmax
    unfold Battery.get_remaining_cycles
    rcases Battery.reset_daily_cycles_cases b today with h | h <;>
      simp only [h, Battery.reset_max_daily_cycles] <;> linarith

/-- Witness for C5 at exampleBattery2 and amount 5: the successful charge
leaves the counter in [0, max_daily_cycles] and the remaining budget is
nonnegative. -/
theorem daily_cycles_nonneg_and_bounded_witness :
    0 ≤ (exampleBattery2.charge 0 5).2.daily_cycles ∧
    (exampleBattery2.charge 0 5).2.daily_cycles ≤ exampleBattery2.max_daily_cycles ∧
    0 ≤ (exampleBattery2.get_remaining_cycles 0).1 := by
  have h := daily_cycles_nonneg_and_bounded exampleBattery2 0 5
    (by norm_num [exampleBattery2, Battery.init])
    (by norm_num [exampleBattery2, Battery.init])
  have hs : (exampleBattery2.charge 0 5).1 = true := by
    norm_num [Battery.charge, Battery.can_charge, Battery.can_complete_cycles,
      Battery.reset_daily_cycles_if_needed, Battery.init, exampleBattery2]
  exact ⟨h.2.2.2.1, h.2.2.2.2.2.1 hs,
    h.2.2.2.2.2.2.2 (by norm_num [exampleBattery2, Battery.init])
      (by norm_num [exampleBattery2, Battery.init])⟩

/-- An all-zero oracle environment for the price generator, anchored at
the epoch hour. -/
def examplePriceEnv : PriceEnv :=
  { nowAbsHour := 0, nowFrac := 0, uniform := fun _ _ _ => 0,
    normal := fun _ _ _ => 0, expQ := fun _ => 0, sinFactor := fun _ => 0 }

/-- C6: for every oracle draw and every integer forecast_hours the
returned sequence has length forecast_hours clamped to [12, 36] (so 50
gives 36 entries and 5 gives 12), and every returned price is at least
0.05 because of the final floor. -/
theorem day_ahead_prices_length_and_floor (env : PriceEnv) (fh : ℤ) :
    (get_day_ahead_prices env fh).length = (max 12 (min fh 36)).toNat ∧
    (get_day_ahead_prices env 50).length = 36 ∧
    (get_day_ahead_prices env 5).length = 12 ∧
    (∀ p ∈ get_day_ahead_prices env fh, (0.05 : ℚ) ≤ p) := by
  refine ⟨?_, ?_, ?_, ?_⟩
  · simp [get_day_ahead_prices]
  · simp [get_day_ahead_prices]
  · simp [get_day_ahead_prices]
  · intro p hp
    simp only [get_day_ahead_prices, List.mem_map] at hp
    obtain ⟨i, -, rfl⟩ := hp
    exact le_max_left _ _

/-- Witness for C6 at the all-zero oracle environment: the upper clamp is
hit at forecast_hours = 50 and the first returned price (0.231, the
off-peak midnight price with zeroed noise) respects the 0.05 floor. -/
theorem day_ahead_prices_length_and_floor_witness :
    (get_day_ahead_prices examplePriceEnv 50).length = 36 ∧
    ((231 : ℚ)/1000) ∈ get_day_ahead_prices examplePriceEnv 12 ∧
    (0.05 : ℚ) ≤ (231 : ℚ)/1000 := by
  have hmem : ((231 : ℚ)/1000) ∈ get_day_ahead_prices examplePriceEnv 12 := by
    simp only [get_day_ahead_prices, examplePriceEnv, List.mem_map]
    refine ⟨0, by norm_num, ?_⟩
    norm_num
  exact ⟨(day_ahead_prices_length_and_floor examplePriceEnv 50).2.1, hmem,
    (day_ahead_prices_length_and_floor examplePriceEnv 12).2.2.2 _ hmem⟩

/-! ## Helper lemmas for the confidence function -/

theorem confidence_of_near_published (pub : Bool) (d : ℝ)
    (h1 : max 0 d ≤ 24) (h2 : pub = true) :
    get_price_forecast_confidence pub d = 1 := by
  simp only [get_price_forecast_confidence]
  rw [if_pos ⟨h1, h2⟩]
  norm_num

theorem confidence_of_far_or_unpublished (pub : Bool) (d : ℝ)
    (h : ¬ (max 0 d ≤ 24 ∧ pub = true)) :
    get_price_forecast_confidence pub d = max 0.2 (Real.exp (-(max 0 d) / 48)) := by
  simp only [get_price_forecast_confidence]
  rw [if_neg h]

theorem confidence_floor (pub : Bool) (d : ℝ) :
    (0.2 : ℝ) ≤ get_price_forecast_confidence pub d := by
  simp only [get_price_forecast_confidence]
  split
  · norm_num
  · exact le_max_left _ _

theorem confidence_le_one (pub : Bool) (d : ℝ) :
    get_price_forecast_confidence pub d ≤ 1 := by
  simp only [get_price_forecast_confidence]
  split
  · norm_num
  · refine max_le (by norm_num) ?_
    rw [Real.exp_le_one_iff]
    have : (0 : ℝ) ≤ max 0 d := le_max_left 0 d
    linarith

theorem confidence_antitone (pub : Bool) (d d2 : ℝ) (h : d ≤ d2) :
    get_price_forecast_confidence pub d2 ≤ get_price_forecast_confidence pub d := by
  have hm : max 0 d ≤ max 0 d2 := max_le_max le_rfl h
  by_cases h1 : max 0 d ≤ 24 ∧ pub = true
  · rw [confidence_of_near_published pub d h1.1 h1.2]
    exact confidence_le_one pub d2
  · have h2 : ¬ (max 0 d2 ≤ 24 ∧ pub = true) := by
      intro hx
      exact h1 ⟨le_trans hm hx.1, hx.2⟩
    rw [confidence_of_far_or_unpublished pub d h1,
      confidence_of_far_or_unpublished pub d2 h2]
    refine max_le_max le_rfl (Real.exp_le_exp.2 ?_)
    linarith

theorem exp_neg_72_div_48_gt_floor : (0.2 : ℝ) < Real.exp (-(72 : ℝ) / 48) := by
  have hexp3 : Real.exp 3 < 25 := by
    have h1 : Real.exp ((3 : ℕ) * (1 : ℝ)) = Real.exp 1 ^ 3 := Real.exp_nat_mul 1 3
    have h2 : Real.exp 1 ^ 3 < (2.7182818286 : ℝ) ^ 3 :=
      pow_lt_pow_left₀ Real.exp_one_lt_d9 (Real.exp_pos 1).le (by norm_num)
    have h3 : ((3 : ℕ) * (1 : ℝ)) = 3 := by norm_num
    rw [h3] at h1
    rw [h1]
    calc Real.exp 1 ^ 3 < (2.7182818286 : ℝ) ^ 3 := h2
      _ < 25 := by norm_num
  have hsq : Real.exp (3 / 2) * Real.exp (3 / 2) = Real.exp 3 := by
    rw [← Real.exp_add]
    norm_num
  have hlt5 : Real.exp (3 / 2) < 5 := by
    nlinarith [Real.exp_pos (3 / 2)]
  have hinv : (5 : ℝ)⁻¹ < (Real.exp (3 / 2))⁻¹ :=
    inv_strictAnti₀ (Real.exp_pos (3 / 2)) hlt5
  have heq : Real.exp (-(72 : ℝ) / 48) = (Real.exp (3 / 2))⁻¹ := by
    rw [show (-(72 : ℝ) / 48) = -(3 / 2) by norm_num, Real.exp_neg]
  rw [heq]
  calc (0.2 : ℝ) = (5 : ℝ)⁻¹ := by norm_num
    _ < (Real.exp (3 / 2))⁻¹ := hinv

/-- C7: writing d for the signed hour distance of the queried date from
now and s for the current local time of day in seconds,
get_price_forecast_confidence returns exactly 1.0 when the date is at
most 24 hours ahead and is_prices_available_for_tomorrow holds (which is
exactly s at or past 13:00), otherwise max(0.2, exp(-hours_ahead/48));
the result never drops below 0.2, is monotonically non-increasing in the
forecast distance, and at 72 hours ahead lies in [0.2, exp(-72/48)]. -/
theorem price_forecast_confidence_spec (s : ℚ) (d : ℝ) :
    (is_prices_available_for_tomorrow s = true ↔ (13 * 3600 : ℚ) ≤ s) ∧
    (max 0 d ≤ 24 → is_prices_available_for_tomorrow s = true →
      get_price_forecast_confidence (is_prices_available_for_tomorrow s) d = 1) ∧
    (¬ (max 0 d ≤ 24 ∧ is_prices_available_for_tomorrow s = true) →
      get_price_forecast_confidence (is_prices_available_for_tomorrow s) d =
        max 0.2 (Real.exp (-(max 0 d) / 48))) ∧
    (0.2 ≤ get_price_forecast_confidence (is_prices_available_for_tomorrow s) d) ∧
    (∀ d2 : ℝ, d ≤ d2 →
      get_price_forecast_confidence (is_prices_available_for_tomorrow s) d2 ≤
        get_price_forecast_confidence (is_prices_available_for_tomorrow s) d) ∧
    (d = 72 →
      0.2 ≤ get_price_forecast_confidence (is_prices_available_for_tomorrow s) d ∧
      get_price_forecast_confidence (is_prices_available_for_tomorrow s) d ≤
        Real.exp (-(72 : ℝ) / 48)) := by
  set pub := is_prices_available_for_tomorrow s with hpub
  refine ⟨?_, ?_, ?_, ?_, ?_, ?_⟩
  · simp [is_prices_available_for_tomorrow, hpub]
  · exact confidence_of_near_published pub d
  · exact confidence_of_far_or_unpublished pub d
  · exact confidence_floor pub d
  · exact fun d2 h => confidence_antitone pub d d2 h
  · rintro rfl
    have hfar : ¬ (max (0 : ℝ) 72 ≤ 24 ∧ pub = true) := by
      rintro ⟨hx, -⟩
      rw [max_eq_right (by norm_num : (0 : ℝ) ≤ 72)] at hx
      linarith
    have hd : get_price_forecast_confidence pub 72 =
        max 0.2 (Real.exp (-(72 : ℝ) / 48)) := by
      rw [confidence_of_far_or_unpublished pub 72 hfar,
        max_eq_right (by norm_num : (0 : ℝ) ≤ 72)]
    refine ⟨confidence_floor pub 72, ?_⟩
    rw [hd, max_eq_right exp_neg_72_div_48_gt_floor.le]

/-- Witness for C7 at a 13:03:20 clock (47000 s past midnight, so the
prices for tomorrow are published) and a date 72 hours ahead: the
confidence lies in [0.2, exp(-72/48)]. -/
theorem price_forecast_confidence_spec_witness :
    is_prices_available_for_tomorrow 47000 = true ∧
    0.2 ≤ get_price_forecast_confidence (is_prices_available_for_tomorrow 47000) 72 ∧
    get_price_forecast_confidence (is_prices_available_for_tomorrow 47000) 72 ≤
      Real.exp (-(72 : ℝ) / 48) := by
  have h := price_forecast_confidence_spec 47000 72
  have h72 := h.2.2.2.2.2 rfl
  exact ⟨h.1.mpr (by norm_num), h72.1, h72.2⟩

/-- The weekday/weekend time-of-day multiplier table as the spec states
it (section 4.1: weekday morning peak 7-9 x2.0, evening peak 17-22 x2.5,
night 0-6 x0.3, else x0.8; weekend late morning 9-12 x1.8,
afternoon/evening 13-22 x1.5, else x0.4), written independently of the
code to compare the two. -/
def spec_time_of_day_factor (hour : ℤ) (is_weekend : Bool) : ℚ :=
  if is_weekend then
    if 9 ≤ hour ∧ hour ≤ 12 then 1.8
    else if 13 ≤ hour ∧ hour ≤ 22 then 1.5
    else 0.4
  else
    if 7 ≤ hour ∧ hour ≤ 9 then 2.0
    else if 17 ≤ hour ∧ hour ≤ 22 then 2.5
    else if 0 ≤ hour ∧ hour ≤ 6 then 0.3
    else 0.8

/-- C8: for every hour in 0..23 and every date, get_hourly_consumption
equals (yearly_consumption/365 x seasonal_factor(month))/24 multiplied by
the time-of-day factor of the spec table, with weekend status decided by
date.weekday() >= 5. -/
theorem hourly_consumption_matches_spec_table (b : Battery) (hour : ℤ) (date : PDate)
    (h0 : 0 ≤ hour) (h23 : hour ≤ 23) :
    b.get_hourly_consumption hour date =
      b.yearly_consumption / 365 * b.get_seasonal_factor date.month / 24 *
        spec_time_of_day_factor hour (decide (5 ≤ date.weekday)) := by
  unfold Battery.get_hourly_consumption Battery.get_daily_consumption_for_date
    spec_time_of_day_factor
  by_cases hw : 5 ≤ date.weekday
  · simp [hw]
    split_ifs <;> ring
  · simp [hw]
    split_ifs <;> ring

/-- Witness for C8 at hour 8 of a Monday in January on exampleBattery2:
the morning-peak weekday factor 2.0 applies. -/
theorem hourly_consumption_matches_spec_table_witness :
    ((0 : ℤ) ≤ 8 ∧ (8 : ℤ) ≤ 23) ∧
    exampleBattery2.get_hourly_consumption 8 ⟨1, 0⟩ =
      exampleBattery2.yearly_consumption / 365 *
        exampleBattery2.get_seasonal_factor 1 / 24 *
        spec_time_of_day_factor 8 (decide (5 ≤ (0 : ℕ))) := by
  exact ⟨⟨by norm_num, by norm_num⟩,
    hourly_consumption_matches_spec_table exampleBattery2 8 ⟨1, 0⟩
      (by norm_num) (by norm_num)⟩

/-- C9: get_effective_price(base_price, hour) is round3(base_price +
surcharge_rate), independent of the hour argument, and at base 0.20 with
surcharge 0.050 it returns 0.250. -/
theorem effective_price_surcharge_hour_independent (b : Battery) (base : ℚ)
    (h1 h2 : ℤ) :
    b.get_effective_price base h1 = round3 (base + b.surcharge_rate) ∧
    b.get_effective_price base h1 = b.get_effective_price base h2 ∧
    (b.surcharge_rate = 0.050 → base = 0.20 →
      b.get_effective_price base h1 = 0.250) := by
  refine ⟨rfl, rfl, fun hs hb => ?_⟩
  subst hb
  unfold Battery.get_effective_price
  rw [hs]
  norm_num [round3, roundHalfEven]

/-- Witness for C9 on exampleBattery2 (whose constructor rounds the
default surcharge 0.050 to itself): the price at hour 9 is 0.250 and
matches the hour-15 price. -/
theorem effective_price_surcharge_hour_independent_witness :
    exampleBattery2.surcharge_rate = 0.050 ∧
    exampleBattery2.get_effective_price 0.20 9 = 0.250 ∧
    exampleBattery2.get_effective_price 0.20 9 =
      exampleBattery2.get_effective_price 0.20 15 := by
  have hs : exampleBattery2.surcharge_rate = 0.050 := by
    norm_num [exampleBattery2, Battery.init, round3, roundHalfEven]
  have h := effective_price_surcharge_hour_independent exampleBattery2 0.20 9 15
  exact ⟨hs, h.2.2 hs rfl, h.2.1⟩

/-- C10: get_seasonal_factor returns 1.0 for a month missing from
monthly_distribution and the mapped multiplier for a present month; in
the embedding it is a pure function of the battery, so it mutates
nothing. -/
theorem seasonal_factor_lookup_or_default (b : Battery) (month : ℤ) :
    (b.monthly_distribution.lookup month = none →
      b.get_seasonal_factor month = 1.0) ∧
    (∀ v, b.monthly_distribution.lookup month = some v →
      b.get_seasonal_factor month = v) := by
  constructor
  · intro h
    unfold Battery.get_seasonal_factor
    rw [h]
    rfl
  · intro v h
    unfold Battery.get_seasonal_factor
    rw [h]
    rfl

/-- Witness for C10 on the default distribution: month 13 is unmapped and
yields 1.0, month 1 is mapped to 1.2 and yields 1.2. -/
theorem seasonal_factor_lookup_or_default_witness :
    exampleBattery2.monthly_distribution.lookup 13 = none ∧
    exampleBattery2.get_seasonal_factor 13 = 1.0 ∧
    exampleBattery2.monthly_distribution.lookup 1 = some 1.2 ∧
    exampleBattery2.get_seasonal_factor 1 = 1.2 := by
  have h13 : exampleBattery2.monthly_distribution.lookup 13 = none := rfl
  have h1 : exampleBattery2.monthly_distribution.lookup 1 = some 1.2 := rfl
  exact ⟨h13, (seasonal_factor_lookup_or_default exampleBattery2 13).1 h13, h1,
    (seasonal_factor_lookup_or_default exampleBattery2 1).2 1.2 h1⟩
